import Mathlib

/-!
Shallow embedding of `src/ContactForm.tsx` (a React contact form validated
by a Zod schema through react-hook-form's `zodResolver`).

The draft record holds exactly the value shapes the registered inputs can
deliver to the resolver:
* text inputs / textarea / select deliver a `String` (a select with no
  choice delivers the empty string of its first option);
* the age input is registered with `valueAsNumber : true`, so it delivers a
  JavaScript number, which is `NaN` when the field is empty or unparseable;
* the radio group delivers the chosen value string, or no value at all when
  none is selected;
* the checkbox delivers a `Bool`.

Each field validator returns `none` on success or `some msg` with the first
failing rule's message, exactly as the Zod chain for that field computes it.
String `.length` in JavaScript counts UTF-16 code units and Lean's
`String.length` counts code points; every string these claims touch lies in
the Basic Multilingual Plane, where the two counts coincide.
-/

set_option autoImplicit false

namespace ContactForm

/-- A JavaScript number as delivered by `valueAsNumber` on a number input:
`NaN` when the text is empty or unparseable, otherwise a finite value,
modelled as a rational. -/
inductive JsNum where
  | nan : JsNum
  | num : ℚ → JsNum
  deriving DecidableEq, Repr

/-- The draft record bound by `useForm`, one component per registered
input, in the order the schema declares them. -/
structure Draft where
  name : String
  email : String
  phone : String
  age : JsNum
  gender : Option String
  inquiryType : String
  message : String
  agree : Bool
  deriving DecidableEq, Repr

/-- Zod chain `z.string().min(2, ...)` on `name` (ContactForm.tsx line 7). -/
def nameCheck (s : String) : Option String :=
  if s.length < 2 then some "名前は2文字以上必要です" else none

/-- Split a character list on every separator character, keeping empty
groups, so that `a@b` gives two groups and `a@@b` three. -/
def splitChars (p : Char → Bool) : List Char → List (List Char)
  | [] => [[]]
  | c :: cs =>
    match splitChars p cs, p c with
    | r, true => [] :: r
    | [], false => [[c]]
    | g :: gs, false => (c :: g) :: gs

/-- Modelled from the spec: the grammar behind `z.string().email()`
(ContactForm.tsx lines 8-10) lives inside the zod dependency, not in this
repository's sources. Following the spec's words — "email: text matching a
standard email-address grammar" — the check is: exactly one `@`, a
non-empty local part, and a domain of at least two non-empty dot-separated
labels. -/
def emailOk (s : String) : Bool :=
  match splitChars (fun c => c == '@') s.data with
  | [lp, dom] =>
    let labels := splitChars (fun c => c == '.') dom
    lp.length > 0 && labels.length ≥ 2 && labels.all (fun l => l.length > 0)
  | _ => false

/-- Zod chain `z.string().email(...)` on `email` (ContactForm.tsx lines 8-10). -/
def emailCheck (s : String) : Option String :=
  if emailOk s then none else some "有効なメールアドレスを入力してください"

/-- Matcher for an anchored character-class repetition `^[p]{lo,hi}$`: the
whole character list must consist of characters satisfying `p`, at least
`lo` and at most `hi` of them.  `lo` counts down (saturating) as characters
are consumed; at the end of input the minimum must be exhausted. -/
def matchRep (p : Char → Bool) (lo hi : Nat) : List Char → Bool
  | [] => lo == 0
  | c :: cs => hi != 0 && p c && matchRep p (lo - 1) (hi - 1) cs

/-- Zod chain matching `phone` against the anchored pattern of 10 to 11
ASCII digits
(ContactForm.tsx lines 11-15). `[0-9]` is the ASCII digit class. -/
def phoneCheck (s : String) : Option String :=
  if matchRep Char.isDigit 10 11 s.data then none
  else some "電話番号は10〜11桁の数字で入力してください"

/-- Zod chain `z.number({ invalid_type_error: ... }).min(18, ...).max(120, ...)`
on `age` (ContactForm.tsx lines 16-19).  Zod's number type check rejects `NaN`
with the `invalid_type_error` message and then skips the chained checks;
there is no `.int()` step in the chain. -/
def ageCheck : JsNum → Option String
  | JsNum.nan => some "年齢は数字で入力してください"
  | JsNum.num q =>
    if q < 18 then some "18歳以上でなければなりません"
    else if 120 < q then some "年齢が不正です"
    else none

/-- The allowed values of `z.enum(["male", "female", "other"], ...)`. -/
def genderOptions : List String := ["male", "female", "other"]

/-- Zod chain `z.enum(["male", "female", "other"], { errorMap: ... })` on `gender`
(ContactForm.tsx lines 20-22): a missing value and a value outside the set
both fail, and the `errorMap` turns every issue into the one message. -/
def genderCheck : Option String → Option String
  | none => some "性別を選択してください"
  | some s =>
    if genderOptions.contains s then none else some "性別を選択してください"

/-- The option values the `inquiryType` select offers (besides the empty
placeholder), ContactForm.tsx lines 146-150. -/
def inquiryOptions : List String := ["general", "support", "feedback"]

/-- Zod chain `z.string().nonempty(...)` on `inquiryType` (ContactForm.tsx lines
23-25): only non-emptiness is checked. -/
def inquiryTypeCheck (s : String) : Option String :=
  if s.length < 1 then some "問い合わせ種別を選択してください" else none

/-- Zod chain `z.string().min(10, ...)` on `message` (ContactForm.tsx lines 26-28). -/
def messageCheck (s : String) : Option String :=
  if s.length < 10 then some "内容は10文字以上で入力してください" else none

/-- Zod chain `z.boolean().refine((val) => val, ...)` on `agree`
(ContactForm.tsx lines 29-31). -/
def agreeCheck (b : Bool) : Option String :=
  if b then none else some "利用規約に同意してください"

/-- The per-field error map the resolver reports: `none` for a field whose
checks all passed, `some msg` with the first failing message otherwise. -/
structure Errors where
  name : Option String
  email : Option String
  phone : Option String
  age : Option String
  gender : Option String
  inquiryType : Option String
  message : Option String
  agree : Option String
  deriving DecidableEq, Repr

/-- The schema `contactSchema` (ContactForm.tsx lines 6-32) run over a draft record:
`z.object` validates every field by its own chain, independently. -/
def contactSchema (d : Draft) : Errors where
  name := nameCheck d.name
  email := emailCheck d.email
  phone := phoneCheck d.phone
  age := ageCheck d.age
  gender := genderCheck d.gender
  inquiryType := inquiryTypeCheck d.inquiryType
  message := messageCheck d.message
  agree := agreeCheck d.agree

/-- True when no field reported an error. -/
def Errors.clean (e : Errors) : Bool :=
  e.name.isNone && e.email.isNone && e.phone.isNone && e.age.isNone &&
  e.gender.isNone && e.inquiryType.isNone && e.message.isNone &&
  e.agree.isNone

/-- Resolution by `zodResolver(contactSchema)` applied to a draft: the typed record on
success (Zod's parse returns the same field values), the error map on
failure. -/
def safeParse (d : Draft) : Except Errors Draft :=
  if (contactSchema d).clean then Except.ok d
  else Except.error (contactSchema d)

/-- What one submit attempt does at the system boundary. -/
inductive SubmitOutcome where
  | invoked (data : Draft) : SubmitOutcome
  | rejected (errs : Errors) : SubmitOutcome
  deriving DecidableEq, Repr

/-- One submit attempt, `handleSubmit(onSubmit)` (ContactForm.tsx lines 38-53): run the
resolver on the whole record; on success call `onSubmit` (console log plus
alert — the external sink) with the parsed data, otherwise populate
`formState.errors` and do not call it. -/
def handleSubmitStep (d : Draft) : SubmitOutcome :=
  match safeParse d with
  | Except.ok data => SubmitOutcome.invoked data
  | Except.error e => SubmitOutcome.rejected e

/-- The record of spec §8's happy-path property. -/
def validSample : Draft where
  name := "山田太郎"
  email := "a@b.com"
  phone := "09012345678"
  age := JsNum.num 25
  gender := some "male"
  inquiryType := "general"
  message := "お問い合わせ内容です"
  agree := true

/-- The empty draft the form mounts with: empty strings, no radio choice,
empty number input (`NaN`), unchecked checkbox. -/
def emptyDraft : Draft where
  name := ""
  email := ""
  phone := ""
  age := JsNum.nan
  gender := none
  inquiryType := ""
  message := ""
  agree := false

/-- A string has length zero exactly when it is the empty string. -/
theorem string_length_eq_zero (s : String) : s.length = 0 ↔ s = "" := by
  cases s with
  | mk l =>
    cases l with
    | nil => simp [String.length]
    | cons c cs =>
      constructor
      · intro h
        simp [String.length] at h
      · intro h
        have hd : (String.mk (c :: cs)).data = ("" : String).data := by rw [h]
        simp at hd

/-- Specification of the anchored repetition matcher: it accepts exactly
the lists made of `p`-characters whose length lies in `[lo, hi]`. -/
theorem matchRep_eq_true (p : Char → Bool) (lo hi : Nat) (cs : List Char) :
    matchRep p lo hi cs = true ↔
      lo ≤ cs.length ∧ cs.length ≤ hi ∧ cs.all p = true := by
  induction cs generalizing lo hi with
  | nil =>
    simp [matchRep]
  | cons c cs ih =>
    simp only [matchRep, Bool.and_eq_true, bne_iff_ne, ne_eq, ih,
      List.length_cons, List.all_cons]
    constructor
    · rintro ⟨⟨hhi, hc⟩, hlo, hhi2, hall⟩
      refine ⟨by omega, by omega, hc, hall⟩
    · rintro ⟨hlo, hhi, hc, hall⟩
      refine ⟨⟨by omega, hc⟩, by omega, by omega, hall⟩

/-- Unfolding of `Errors.clean` into the eight per-field conditions. -/
theorem clean_iff (e : Errors) :
    e.clean = true ↔
      e.name = none ∧ e.email = none ∧ e.phone = none ∧ e.age = none ∧
      e.gender = none ∧ e.inquiryType = none ∧ e.message = none ∧
      e.agree = none := by
  cases e
  simp [Errors.clean, Option.isNone_iff_eq_none, and_assoc]

/-- C1, counterexample: the draft whose `inquiryType` is the string `xyz`
(all other fields as in the happy-path record) passes full validation —
the `inquiryType` error slot is empty and the whole record is clean —
although `xyz` is not among the enumerated options, so membership in
`{general, support, feedback}` is not what the check enforces. -/
theorem inquiryType_enum_cex :
    (contactSchema { validSample with inquiryType := "xyz" }).inquiryType
        = none ∧
    (contactSchema { validSample with inquiryType := "xyz" }).clean = true ∧
    inquiryOptions.contains "xyz" = false := by
  decide

/-- C1, amended: the `inquiryType` field passes validation exactly when its
value is a non-empty string (the schema checks only `nonempty`, not
membership in the enumerated set); the empty value is rejected with the
`inquiryType` error message. -/
theorem inquiryType_nonempty_iff (d : Draft) :
    ((contactSchema d).inquiryType = none ↔ d.inquiryType ≠ "") ∧
    ((contactSchema d).inquiryType = some "問い合わせ種別を選択してください"
        ↔ d.inquiryType = "") := by
  by_cases h : d.inquiryType.length < 1
  · have he : d.inquiryType = "" := (string_length_eq_zero _).mp (by omega)
    simp [contactSchema, inquiryTypeCheck, h, he]
  · have he : d.inquiryType ≠ "" := by
      intro e
      rw [e] at h
      simp [String.length] at h
    simp [contactSchema, inquiryTypeCheck, h, he]

/-- C2, counterexample: the draft whose `age` is the non-integer number
25.5 (denominator 2), all other fields as in the happy-path record, passes
full validation — the schema chain has no integrality step, so the claim
that every non-integer numeric value is rejected is false. -/
theorem age_integer_cex :
    (contactSchema { validSample with age := JsNum.num (mkRat 51 2) }).age
        = none ∧
    (contactSchema { validSample with age := JsNum.num (mkRat 51 2) }).clean
        = true ∧
    (mkRat 51 2).den ≠ 1 := by
  decide

/-- C2, amended: the `age` field passes validation exactly when its value
is an actual number (not `NaN`) lying in the inclusive range `[18, 120]`;
integrality is not checked, so non-integer numbers in range are accepted. -/
theorem age_range_iff (d : Draft) :
    (contactSchema d).age = none ↔
      ∃ q : ℚ, d.age = JsNum.num q ∧ 18 ≤ q ∧ q ≤ 120 := by
  cases hd : d.age with
  | nan => simp [contactSchema, ageCheck, hd]
  | num q =>
    by_cases h1 : q < 18
    · simp only [contactSchema, ageCheck, hd, if_pos h1]
      simp only [reduceCtorEq, JsNum.num.injEq, false_iff, not_exists,
        not_and]
      rintro q' rfl h18
      linarith
    · by_cases h2 : 120 < q
      · simp only [contactSchema, ageCheck, hd, if_neg h1, if_pos h2]
        simp only [reduceCtorEq, JsNum.num.injEq, false_iff, not_exists,
          not_and]
        rintro q' rfl h18 h120
        linarith
      · simp only [contactSchema, ageCheck, hd, if_neg h1, if_neg h2]
        simp only [JsNum.num.injEq, true_iff]
        exact ⟨q, rfl, le_of_not_lt h1, le_of_not_lt h2⟩

/-- C4: the phone check succeeds exactly on strings that are an exact
full-string match of ten or eleven ASCII digit characters; every other
string fails. -/
theorem phone_exact_match (s : String) :
    phoneCheck s = none ↔
      (s.length = 10 ∨ s.length = 11) ∧ s.data.all Char.isDigit = true := by
  have hlen : s.length = s.data.length := rfl
  by_cases h : matchRep Char.isDigit 10 11 s.data
  · obtain ⟨h10, h11, hall⟩ := (matchRep_eq_true _ _ _ _).mp h
    simp only [phoneCheck, if_pos h, true_iff]
    exact ⟨by omega, hall⟩
  · simp only [phoneCheck, if_neg h, reduceCtorEq, false_iff, not_and]
    rintro (h10 | h11) hall <;>
      exact h ((matchRep_eq_true _ _ _ _).mpr ⟨by omega, by omega, hall⟩)

/-- C5: a draft with `agree = false` never validates cleanly, whatever the
other fields hold; a draft with `agree = true` whose seven other fields
each pass their own check validates cleanly. -/
theorem agree_gate (d : Draft) :
    (d.agree = false → (contactSchema d).clean = false) ∧
    (d.agree = true →
      nameCheck d.name = none →
      emailCheck d.email = none →
      phoneCheck d.phone = none →
      ageCheck d.age = none →
      genderCheck d.gender = none →
      inquiryTypeCheck d.inquiryType = none →
      messageCheck d.message = none →
      (contactSchema d).clean = true) := by
  constructor
  · intro h
    simp [contactSchema, Errors.clean, agreeCheck, h]
  · intro h h1 h2 h3 h4 h5 h6 h7
    simp [contactSchema, Errors.clean, agreeCheck, h, h1, h2, h3, h4, h5,
      h6, h7]

/-- Witness for C5: the happy-path record with `agree` flipped to `false`
fails validation, and the happy-path record itself validates cleanly. -/
theorem agree_gate_witness :
    (contactSchema { validSample with agree := false }).clean = false ∧
    (contactSchema validSample).clean = true :=
  ⟨(agree_gate { validSample with agree := false }).1 rfl,
   (agree_gate validSample).2 rfl (by decide) (by decide) (by decide)
     (by decide) (by decide) (by decide) (by decide)⟩

/-- C3: the submit handler (the external sink) is invoked exactly on the
submit attempts whose full-record validation is clean — whenever it is
invoked the record was clean and is passed unchanged, a clean record does
get it invoked, and a failing record yields the populated error map with
no invocation. -/
theorem submit_gate (d : Draft) :
    (∀ r : Draft, handleSubmitStep d = SubmitOutcome.invoked r →
      (contactSchema d).clean = true ∧ r = d) ∧
    ((contactSchema d).clean = true →
      handleSubmitStep d = SubmitOutcome.invoked d) ∧
    ((contactSchema d).clean = false →
      handleSubmitStep d = SubmitOutcome.rejected (contactSchema d)) := by
  by_cases h : (contactSchema d).clean = true
  · refine ⟨?_, ?_, ?_⟩
    · intro r hr
      refine ⟨h, ?_⟩
      simp only [handleSubmitStep, safeParse, if_pos h,
        SubmitOutcome.invoked.injEq] at hr
      exact hr.symm
    · intro _
      simp [handleSubmitStep, safeParse, h]
    · intro hf
      rw [hf] at h
      simp at h
  · have hf : (contactSchema d).clean = false := by
      cases hcl : (contactSchema d).clean
      · rfl
      · exact absurd hcl h
    refine ⟨?_, ?_, ?_⟩
    · intro r hr
      simp [handleSubmitStep, safeParse, hf] at hr
    · intro ht
      exact absurd ht h
    · intro _
      simp [handleSubmitStep, safeParse, hf]

/-- Witness for C3: the happy-path record gets the handler invoked with
that very record; the empty mount-time draft gets the populated error map
instead. -/
theorem submit_gate_witness :
    handleSubmitStep validSample = SubmitOutcome.invoked validSample ∧
    handleSubmitStep emptyDraft
        = SubmitOutcome.rejected (contactSchema emptyDraft) :=
  ⟨(submit_gate validSample).2.1 (by decide),
   (submit_gate emptyDraft).2.2 (by decide)⟩

/-- C6: whenever the age value is non-numeric (`NaN`, the only non-number
a number input can deliver), validation reports the age type-error message
and neither of the two range messages. -/
theorem age_nonnumeric_type_error (d : Draft) (h : d.age = JsNum.nan) :
    (contactSchema d).age = some "年齢は数字で入力してください" ∧
    (contactSchema d).age ≠ some "18歳以上でなければなりません" ∧
    (contactSchema d).age ≠ some "年齢が不正です" := by
  have hx : (contactSchema d).age = some "年齢は数字で入力してください" := by
    simp [contactSchema, h, ageCheck]
  exact ⟨hx, by rw [hx]; decide, by rw [hx]; decide⟩

/-- Witness for C6: the empty mount-time draft has `NaN` age and receives
the type-error message. -/
theorem age_nonnumeric_type_error_witness :
    (contactSchema emptyDraft).age = some "年齢は数字で入力してください" :=
  (age_nonnumeric_type_error emptyDraft rfl).1

/-- C7: per-field outcomes depend on that field's value alone — two drafts
agreeing on a field get the identical error outcome for it — and all
fields are checked on every run; in particular, over any cleanly
validating draft, setting `age` to 15 makes exactly the age slot fail with
the under-18 message, and setting `email` to `not-an-email` makes exactly
the email slot fail. -/
theorem field_checks_independent :
    (∀ d₁ d₂ : Draft, d₁.name = d₂.name →
      (contactSchema d₁).name = (contactSchema d₂).name) ∧
    (∀ d₁ d₂ : Draft, d₁.email = d₂.email →
      (contactSchema d₁).email = (contactSchema d₂).email) ∧
    (∀ d₁ d₂ : Draft, d₁.phone = d₂.phone →
      (contactSchema d₁).phone = (contactSchema d₂).phone) ∧
    (∀ d₁ d₂ : Draft, d₁.age = d₂.age →
      (contactSchema d₁).age = (contactSchema d₂).age) ∧
    (∀ d₁ d₂ : Draft, d₁.gender = d₂.gender →
      (contactSchema d₁).gender = (contactSchema d₂).gender) ∧
    (∀ d₁ d₂ : Draft, d₁.inquiryType = d₂.inquiryType →
      (contactSchema d₁).inquiryType = (contactSchema d₂).inquiryType) ∧
    (∀ d₁ d₂ : Draft, d₁.message = d₂.message →
      (contactSchema d₁).message = (contactSchema d₂).message) ∧
    (∀ d₁ d₂ : Draft, d₁.agree = d₂.agree →
      (contactSchema d₁).agree = (contactSchema d₂).agree) ∧
    (∀ d : Draft, (contactSchema d).clean = true →
      contactSchema { d with age := JsNum.num 15 } =
        { name := none, email := none, phone := none,
          age := some "18歳以上でなければなりません", gender := none,
          inquiryType := none, message := none, agree := none }) ∧
    (∀ d : Draft, (contactSchema d).clean = true →
      contactSchema { d with email := "not-an-email" } =
        { name := none, email := some "有効なメールアドレスを入力してください",
          phone := none, age := none, gender := none,
          inquiryType := none, message := none, agree := none }) := by
  refine ⟨fun d₁ d₂ h => by simp [contactSchema, h],
    fun d₁ d₂ h => by simp [contactSchema, h],
    fun d₁ d₂ h => by simp [contactSchema, h],
    fun d₁ d₂ h => by simp [contactSchema, h],
    fun d₁ d₂ h => by simp [contactSchema, h],
    fun d₁ d₂ h => by simp [contactSchema, h],
    fun d₁ d₂ h => by simp [contactSchema, h],
    fun d₁ d₂ h => by simp [contactSchema, h],
    ?_, ?_⟩
  · intro d h
    obtain ⟨h1, h2, h3, -, h5, h6, h7, h8⟩ := (clean_iff _).mp h
    simp only [contactSchema] at h1 h2 h3 h5 h6 h7 h8
    simp [contactSchema, h1, h2, h3, h5, h6, h7, h8]
    decide
  · intro d h
    obtain ⟨h1, -, h3, h4, h5, h6, h7, h8⟩ := (clean_iff _).mp h
    simp only [contactSchema] at h1 h3 h4 h5 h6 h7 h8
    simp [contactSchema, h1, h3, h4, h5, h6, h7, h8]
    decide

/-- Witness for C7: over the happy-path record, setting `age` to 15 fails
exactly on the age slot with the under-18 message. -/
theorem field_checks_independent_witness :
    contactSchema { validSample with age := JsNum.num 15 } =
      { name := none, email := none, phone := none,
        age := some "18歳以上でなければなりません", gender := none,
        inquiryType := none, message := none, agree := none } :=
  field_checks_independent.2.2.2.2.2.2.2.2.1 validSample (by decide)

/-- C8: the happy-path record of spec §8 — listed field by field —
validates cleanly and the submit handler is invoked with exactly that
record, unchanged. -/
theorem happy_path :
    validSample =
      { name := "山田太郎", email := "a@b.com", phone := "09012345678",
        age := JsNum.num 25, gender := some "male",
        inquiryType := "general", message := "お問い合わせ内容です",
        agree := true } ∧
    (contactSchema validSample).clean = true ∧
    handleSubmitStep validSample = SubmitOutcome.invoked validSample := by
  decide

/-- C9: length checks count the raw string with no trimming — a name of
exactly two space characters passes the name check and a message of
exactly ten space characters passes the message check. -/
theorem whitespace_not_trimmed :
    nameCheck "  " = none ∧
    "  ".length = 2 ∧
    "  ".data.all (fun c => c == ' ') = true ∧
    messageCheck "          " = none ∧
    "          ".length = 10 ∧
    "          ".data.all (fun c => c == ' ') = true := by
  decide

/-- C10: an age of `NaN` (what `valueAsNumber` yields on an empty or
unparseable number input) is rejected with the age type-error message —
the record does not validate cleanly — and neither range message is
produced, even though `NaN` is a value of the JavaScript number type. -/
theorem age_nan_rejected (d : Draft) (h : d.age = JsNum.nan) :
    (contactSchema d).age = some "年齢は数字で入力してください" ∧
    (contactSchema d).clean = false ∧
    (contactSchema d).age ≠ some "18歳以上でなければなりません" ∧
    (contactSchema d).age ≠ some "年齢が不正です" := by
  have hx : (contactSchema d).age = some "年齢は数字で入力してください" := by
    simp [contactSchema, h, ageCheck]
  have hc : (contactSchema d).clean = false := by
    simp [contactSchema, Errors.clean, h, ageCheck]
  exact ⟨hx, hc, by rw [hx]; decide, by rw [hx]; decide⟩

/-- Witness for C10: the happy-path record with its age replaced by `NaN`
gets the type-error message and fails full validation. -/
theorem age_nan_rejected_witness :
    (contactSchema { validSample with age := JsNum.nan }).age
        = some "年齢は数字で入力してください" ∧
    (contactSchema { validSample with age := JsNum.nan }).clean = false :=
  ⟨(age_nan_rejected { validSample with age := JsNum.nan } rfl).1,
   (age_nan_rejected { validSample with age := JsNum.nan } rfl).2.1⟩

end ContactForm
